import Mathlib

/-!
Shallow embedding of the ERPlora leads module (Pipeline / PipelineStage / Lead /
LeadActivity / LeadSettings domain model and its lifecycle operations), translated
from `src/models.py`, `src/views.py` and settled against the repository's claims.

Conventions of the embedding:
* machine records become Lean structures whose fields keep the source's names;
* the database is an explicit `DB` value threaded through every operation;
* timestamps are integers (seconds); `timezone.now()` becomes an explicit `now` argument;
* primary keys are allocated from a `next_id` counter in `DB`;
* the base model's default manager (`objects`) excludes soft-deleted rows and
  `all_objects` includes them: this behavior of the shared base class (which lives
  outside this module) is pinned by `src/tests/test_models.py::test_soft_delete`;
* Django string fields hold `String`; enum-like columns (`status`, `activity_type`,
  `source`, `priority`, `color`) hold their source string literals;
* JSON `metadata` dictionaries become association lists `List (String × String)`.
-/

structure Pipeline where
  id : Nat
  hub_id : Nat
  name : String
  description : String
  is_default : Bool
  is_active : Bool
  is_deleted : Bool
  deleted_at : Option Int
  created_at : Int
  updated_at : Int
deriving DecidableEq, Repr

structure PipelineStage where
  id : Nat
  hub_id : Nat
  pipeline_id : Nat
  name : String
  order : Nat
  probability : Nat
  color : String
  is_won : Bool
  is_lost : Bool
  is_deleted : Bool
  deleted_at : Option Int
deriving DecidableEq, Repr

structure LossReason where
  id : Nat
  hub_id : Nat
  name : String
  is_active : Bool
  sort_order : Nat
  is_deleted : Bool
deriving DecidableEq, Repr

structure Lead where
  id : Nat
  hub_id : Nat
  name : String
  email : String
  phone : String
  company : String
  value : Int
  expected_close_date : Option Int
  pipeline_id : Nat
  stage_id : Nat
  assigned_to : Option Nat
  customer_id : Option Nat
  source : String
  priority : String
  notes : String
  status : String
  won_date : Option Int
  lost_date : Option Int
  loss_reason_id : Option Nat
  stage_changed_at : Int
  created_at : Int
  updated_at : Int
  is_deleted : Bool
  deleted_at : Option Int
deriving DecidableEq, Repr

structure LeadActivity where
  id : Nat
  hub_id : Nat
  lead_id : Nat
  activity_type : String
  description : String
  metadata : List (String × String)
  created_at : Int
  is_deleted : Bool
deriving DecidableEq, Repr

/-- Per-hub singleton settings row; `LeadSettings.get_settings` keys it by
`hub_id` (`get_or_create(hub_id=hub_id)`), so the embedding identifies the row
by its hub. -/
structure LeadSettings where
  hub_id : Nat
  default_pipeline_id : Option Nat
  auto_create_customer_on_win : Bool
  default_source : String
  is_deleted : Bool
deriving DecidableEq, Repr

/-- External `customers.Customer` collaborator record, as created by
`Lead.convert_to_customer`. -/
structure Customer where
  id : Nat
  hub_id : Nat
  name : String
  email : String
  phone : String
  is_deleted : Bool
deriving DecidableEq, Repr

/-- The whole persistent state.  `customers_available` models whether the optional
`customers` module can be imported at all; `customer_create_fails` is the fault
knob for the collaborator's create call raising (both importing and creating are
wrapped in `except (ImportError, Exception)` in the source). -/
structure DB where
  pipelines : List Pipeline
  stages : List PipelineStage
  leads : List Lead
  activities : List LeadActivity
  settings : List LeadSettings
  customers : List Customer
  customers_available : Bool
  customer_create_fails : Bool
  next_id : Nat
deriving DecidableEq, Repr

def emptyDB : DB :=
  { pipelines := [], stages := [], leads := [], activities := [], settings := []
    customers := [], customers_available := true, customer_create_fails := false
    next_id := 1 }

/-- Persist a lead row: the UPDATE issued by `lead.save(...)` replaces the row
with the given primary key. -/
def saveLead (db : DB) (l : Lead) : DB :=
  { db with leads := db.leads.map (fun x => if x.id == l.id then l else x) }

/-- Persist a stage row (UPDATE by primary key). -/
def saveStage (db : DB) (s : PipelineStage) : DB :=
  { db with stages := db.stages.map (fun x => if x.id == s.id then s else x) }

/-- Persist the per-hub settings singleton (UPDATE keyed by hub). -/
def saveSettings (db : DB) (s : LeadSettings) : DB :=
  { db with settings := db.settings.map (fun x => if x.hub_id == s.hub_id then s else x) }

/-- `LeadActivity.objects.create(...)`: append one audit row. -/
def createActivity (db : DB) (hub lead : Nat) (ty descr : String)
    (meta : List (String × String)) (now : Int) : DB :=
  { db with
    activities := db.activities ++
      [{ id := db.next_id, hub_id := hub, lead_id := lead, activity_type := ty
         description := descr, metadata := meta, created_at := now, is_deleted := false }]
    next_id := db.next_id + 1 }

/-- `Pipeline.save` from `src/models.py`: when saving with `is_default = true`,
first unset the flag on every other default pipeline of the same hub
(`Pipeline.objects` excludes soft-deleted rows, and the query excludes this
pipeline's own primary key), then write this row (UPDATE if the key exists,
INSERT otherwise).  `hub_id` is always set on rows of this module, so the
source's `and self.hub_id` guard is always satisfied here.

Row transformer of the bulk `update(is_default=False)`: any other non-deleted
default pipeline of the saved pipeline's hub loses its flag. -/
def unsetOtherDefault (p : Pipeline) (q : Pipeline) : Pipeline :=
  if q.hub_id == p.hub_id && q.is_default && !q.is_deleted && q.id != p.id
  then { q with is_default := false } else q

/-- Row transformer of the final row write: replace the row carrying the saved
pipeline's primary key. -/
def replaceById (p : Pipeline) (q : Pipeline) : Pipeline :=
  if q.id == p.id then p else q

def Pipeline.save (db : DB) (p : Pipeline) : DB :=
  let db1 : DB :=
    if p.is_default then
      { db with pipelines := db.pipelines.map (unsetOtherDefault p) }
    else db
  if db1.pipelines.any (fun q => q.id == p.id) then
    { db1 with pipelines := db1.pipelines.map (replaceById p) }
  else
    { db1 with pipelines := db1.pipelines ++ [p] }

/-- `Pipeline.objects.create(...)`: allocate a key, then run the model's `save`. -/
def createPipeline (db : DB) (hub : Nat) (nm descr : String) (isDef : Bool)
    (now : Int) : Pipeline × DB :=
  let p : Pipeline :=
    { id := db.next_id, hub_id := hub, name := nm, description := descr
      is_default := isDef, is_active := true, is_deleted := false, deleted_at := none
      created_at := now, updated_at := now }
  (p, Pipeline.save { db with next_id := db.next_id + 1 } p)

/-- `PipelineStage.objects.create(...)`. -/
def createStage (db : DB) (hub pipe : Nat) (nm : String) (ord prob : Nat)
    (col : String) (won lost : Bool) : PipelineStage × DB :=
  let s : PipelineStage :=
    { id := db.next_id, hub_id := hub, pipeline_id := pipe, name := nm, order := ord
      probability := prob, color := col, is_won := won, is_lost := lost
      is_deleted := false, deleted_at := none }
  (s, { db with stages := db.stages ++ [s], next_id := db.next_id + 1 })

/-- `LeadSettings.get_settings(hub_id)`: `get_or_create(hub_id=hub_id)` on the
default (non-deleted) scope, creating a default-valued row when absent. -/
def LeadSettings.get_settings (db : DB) (hub : Nat) : LeadSettings × DB :=
  match db.settings.find? (fun s => s.hub_id == hub && !s.is_deleted) with
  | some s => (s, db)
  | none =>
    let s : LeadSettings :=
      { hub_id := hub, default_pipeline_id := none
        auto_create_customer_on_win := false, default_source := "manual"
        is_deleted := false }
    (s, { db with settings := db.settings ++ [s] })

/-- `.order_by('order').first()` on a stage queryset: ascending stable sort on
`order`, so among ties the earliest row wins. -/
def minByOrder : List PipelineStage → Option PipelineStage
  | [] => none
  | s :: rest =>
    match minByOrder rest with
    | none => some s
    | some m => if s.order ≤ m.order then some s else some m

/-- Meta ordering of `Pipeline` is `['-is_default', 'name']`; `a` sorts no later
than `b` under that ordering. -/
def pipelineBefore (a b : Pipeline) : Bool :=
  if a.is_default == b.is_default then a.name ≤ b.name else a.is_default

/-- `.first()` on a pipeline queryset: earliest row under the Meta ordering,
stable among ties. -/
def pipelineMin : List Pipeline → Option Pipeline
  | [] => none
  | p :: rest =>
    match pipelineMin rest with
    | none => some p
    | some m => if pipelineBefore p m then some p else some m

/-- `Pipeline.objects.filter(hub_id=hub_id, is_deleted=False).first()`. -/
def firstPipeline (db : DB) (hub : Nat) : Option Pipeline :=
  pipelineMin (db.pipelines.filter (fun p => p.hub_id == hub && !p.is_deleted))

/-- `pipeline.stages.filter(is_deleted=False, is_won=False, is_lost=False)
.order_by('order').first()`: the lowest-order non-terminal stage of a pipeline. -/
def firstNonTerminalStage (db : DB) (pipe : Nat) : Option PipelineStage :=
  minByOrder (db.stages.filter (fun s =>
    s.pipeline_id == pipe && !s.is_deleted && !s.is_won && !s.is_lost))

/-- The seven standard stages created by `ensure_default_pipeline`
(name, order, probability, color, is_won, is_lost). -/
def default_stages : List (String × Nat × Nat × String × Bool × Bool) :=
  [("New", 10, 10, "info", false, false),
   ("Contacted", 20, 20, "primary", false, false),
   ("Qualified", 30, 40, "primary", false, false),
   ("Proposal", 40, 60, "warning", false, false),
   ("Negotiation", 50, 80, "warning", false, false),
   ("Won", 60, 100, "success", true, false),
   ("Lost", 70, 0, "danger", false, true)]

/-- `ensure_default_pipeline(hub_id)` from `src/models.py`: return the hub's
first non-deleted pipeline if any; otherwise create the "Sales Pipeline" with
`is_default=true`, create the seven standard stages, and record the pipeline as
the hub's settings default. -/
def ensure_default_pipeline (db : DB) (hub : Nat) (now : Int) : Pipeline × DB :=
  match firstPipeline db hub with
  | some p => (p, db)
  | none =>
    let (p, db1) := createPipeline db hub "Sales Pipeline" "Default sales pipeline" true now
    let db2 := default_stages.foldl
      (fun d st => (createStage d hub p.id st.1 st.2.1 st.2.2.1 st.2.2.2.1
        st.2.2.2.2.1 st.2.2.2.2.2).2) db1
    let (st, db3) := LeadSettings.get_settings db2 hub
    let db4 := saveSettings db3 { st with default_pipeline_id := some p.id }
    (p, db4)

/-- `Lead.days_in_stage`: whole days since the last stage change. -/
def Lead.days_in_stage (l : Lead) (now : Int) : Int :=
  (now - l.stage_changed_at).fdiv 86400

/-- `Lead.days_open` from `src/models.py`: branches on `status`; `timedelta.days`
is floor division of the elapsed seconds by 86400 (Python floors toward negative
infinity, matching `Int.fdiv`).  The `getD 0` defaults are guarded by `isSome`. -/
def Lead.days_open (l : Lead) (now : Int) : Int :=
  if l.status == "open" then (now - l.created_at).fdiv 86400
  else if l.status == "won" && l.won_date.isSome then
    ((l.won_date.getD 0) - l.created_at).fdiv 86400
  else if l.status == "lost" && l.lost_date.isSome then
    ((l.lost_date.getD 0) - l.created_at).fdiv 86400
  else 0

/-- `Lead.mark_won` from `src/models.py`: set `status='won'`, `won_date=now()`,
save (`update_fields=['status','won_date','updated_at']`), then append a
`status_change` activity with metadata `new_status='won'`.  Returns the mutated
in-memory lead together with the new state. -/
def Lead.mark_won (db : DB) (l : Lead) (now : Int) : Lead × DB :=
  let l' := { l with status := "won", won_date := some now, updated_at := now }
  let db1 := saveLead db l'
  let db2 := createActivity db1 l.hub_id l.id "status_change" "Lead marked as won"
    [("new_status", "won")] now
  (l', db2)

/-- `Lead.mark_lost` from `src/models.py`: set `status='lost'`, `lost_date=now()`
and the loss reason, save, then append a `status_change` activity whose metadata
carries the reason name when present. -/
def Lead.mark_lost (db : DB) (l : Lead) (reason : Option LossReason) (now : Int) :
    Lead × DB :=
  let l' := { l with status := "lost", lost_date := some now
                     loss_reason_id := reason.map LossReason.id, updated_at := now }
  let db1 := saveLead db l'
  let meta := match reason with
    | some r => [("new_status", "lost"), ("loss_reason", r.name)]
    | none => [("new_status", "lost")]
  let db2 := createActivity db1 l.hub_id l.id "status_change" "Lead marked as lost"
    meta now
  (l', db2)

/-- Forward foreign-key access `self.stage` (used for the old stage's name and id
in the activity): Django resolves it through the base manager, soft-deleted or
not.  A dangling reference would raise in the source; it is modelled as empty
strings and is unreachable from well-formed states. -/
def oldStageInfo (db : DB) (l : Lead) : String × String :=
  match db.stages.find? (fun s => s.id == l.stage_id) with
  | some s => (s.name, toString s.id)
  | none => ("", "")

/-- `Lead.move_to_stage` from `src/models.py`: record the old stage, set the new
stage and `stage_changed_at=now()`, save, append a `stage_change` activity with
the old/new names and ids, then cascade: `mark_won` when the target stage has
`is_won`, else `mark_lost(None)` when it has `is_lost`. -/
def Lead.move_to_stage (db : DB) (l : Lead) (new_stage : PipelineStage) (now : Int) :
    Lead × DB :=
  let old := oldStageInfo db l
  let l1 := { l with stage_id := new_stage.id, stage_changed_at := now, updated_at := now }
  let db1 := saveLead db l1
  let db2 := createActivity db1 l.hub_id l.id "stage_change"
    ("Stage changed from " ++ old.1 ++ " to " ++ new_stage.name)
    [("old_stage", old.2), ("old_stage_name", old.1),
     ("new_stage", toString new_stage.id), ("new_stage_name", new_stage.name)] now
  if new_stage.is_won then Lead.mark_won db2 l1 now
  else if new_stage.is_lost then Lead.mark_lost db2 l1 none now
  else (l1, db2)

/-- `Lead.convert_to_customer` from `src/models.py`: if the `customers` module is
importable and its create call does not raise, create a customer from the lead's
data (`name = company or name`), link it, append a `note` activity and return it;
any failure is swallowed and `None` is returned with nothing committed (the
create call is the first write inside the `try`).  Returns the created customer
(if any), the mutated in-memory lead, and the new state. -/
def Lead.convert_to_customer (db : DB) (l : Lead) (now : Int) :
    Option Customer × Lead × DB :=
  if db.customers_available && !db.customer_create_fails then
    let c : Customer :=
      { id := db.next_id, hub_id := l.hub_id
        name := if l.company == "" then l.name else l.company
        email := l.email, phone := l.phone, is_deleted := false }
    let db1 := { db with customers := db.customers ++ [c], next_id := db.next_id + 1 }
    let l' := { l with customer_id := some c.id, updated_at := now }
    let db2 := saveLead db1 l'
    let db3 := createActivity db2 l.hub_id l.id "note"
      ("Lead converted to customer: " ++ c.name) [("customer_id", toString c.id)] now
    (some c, l', db3)
  else (none, l, db)

/-- `get_object_or_404(Lead, id=lead_id, hub_id=hub, is_deleted=False)`. -/
def get_lead_or_404 (db : DB) (hub lead_id : Nat) : Option Lead :=
  db.leads.find? (fun l => l.id == lead_id && l.hub_id == hub && !l.is_deleted)

/-- `get_object_or_404(PipelineStage, id=stage_id, hub_id=hub, is_deleted=False)`. -/
def get_stage_or_404 (db : DB) (hub stage_id : Nat) : Option PipelineStage :=
  db.stages.find? (fun s => s.id == stage_id && s.hub_id == hub && !s.is_deleted)

/-- `get_object_or_404(Pipeline, id=pipeline_id, hub_id=hub, is_deleted=False)`. -/
def get_pipeline_or_404 (db : DB) (hub pipeline_id : Nat) : Option Pipeline :=
  db.pipelines.find? (fun p => p.id == pipeline_id && p.hub_id == hub && !p.is_deleted)

/-- Default tenant scope for leads: `filter(hub_id=hub, is_deleted=False)`. -/
def leadsDefaultScope (db : DB) (hub : Nat) : List Lead :=
  db.leads.filter (fun l => l.hub_id == hub && !l.is_deleted)

/-- The explicit including-deleted view (`all_objects`, pinned by the module's
tests): only the tenant filter, no soft-delete filter. -/
def leadsAllObjects (db : DB) (hub : Nat) : List Lead :=
  db.leads.filter (fun l => l.hub_id == hub)

/-- Number of activities of one type attached to a lead. -/
def activityCount (db : DB) (lead_id : Nat) (ty : String) : Nat :=
  (db.activities.filter (fun a => a.lead_id == lead_id && a.activity_type == ty)).length

/-- Number of activities of one type with exactly the given metadata. -/
def activityCountMeta (db : DB) (lead_id : Nat) (ty : String)
    (meta : List (String × String)) : Nat :=
  (db.activities.filter (fun a =>
    a.lead_id == lead_id && a.activity_type == ty && a.metadata == meta)).length

/-- Outcome of the `lead_delete` view: `get_object_or_404` raises 404 when the
lead does not resolve inside the tenant's non-deleted scope. -/
inductive DeleteResult where
  | ok
  | notFound
deriving DecidableEq, Repr

/-- `lead_delete` from `src/views.py`: resolve the lead in the non-deleted tenant
scope (404 otherwise), then set `is_deleted=true`, `deleted_at=now()` and save
(`update_fields=['is_deleted','deleted_at','updated_at']`).  The row is never
removed. -/
def lead_delete (db : DB) (hub lead_id : Nat) (now : Int) : DeleteResult × DB :=
  match get_lead_or_404 db hub lead_id with
  | none => (.notFound, db)
  | some l =>
    (.ok, saveLead db { l with is_deleted := true, deleted_at := some now, updated_at := now })

/-- Response of the `lead_move_stage` view.  `success` carries the JSON payload
fields `lead_id`, `new_stage_id` and `status`. -/
inductive MoveStageResult where
  | notFound
  | stageIdRequired
  | success (lead_id new_stage_id : Nat) (status : String)
deriving DecidableEq, Repr

/-- `lead_move_stage` from `src/views.py` (Kanban drag-and-drop): resolve the
lead, require a `stage_id` parameter, resolve the stage, and only when the
target differs from the lead's current stage invoke `move_to_stage`; the JSON
response reports the (possibly cascaded) status of the in-memory lead. -/
def lead_move_stage (db : DB) (hub lead_id : Nat) (stage_id : Option Nat)
    (now : Int) : MoveStageResult × DB :=
  match get_lead_or_404 db hub lead_id with
  | none => (.notFound, db)
  | some l =>
    match stage_id with
    | none => (.stageIdRequired, db)
    | some sid =>
      match get_stage_or_404 db hub sid with
      | none => (.notFound, db)
      | some ns =>
        if l.stage_id != sid then
          let (l', db') := Lead.move_to_stage db l ns now
          (.success l'.id ns.id l'.status, db')
        else
          (.success l.id ns.id l.status, db)

/-- Response of the `lead_won` view: `success` carries the final in-memory lead
and whether `convert_to_customer` returned a customer. -/
inductive WonResult where
  | notFound
  | success (lead : Lead) (customer_created : Bool)
deriving DecidableEq, Repr

/-- `lead_won` from `src/views.py`: resolve the lead, `mark_won`, then consult
the tenant settings; when `auto_create_customer_on_win` is set and the lead has
no linked customer, invoke `convert_to_customer` (whose failure is swallowed). -/
def lead_won (db : DB) (hub lead_id : Nat) (now : Int) : WonResult × DB :=
  match get_lead_or_404 db hub lead_id with
  | none => (.notFound, db)
  | some l =>
    let (l1, db1) := Lead.mark_won db l now
    let (st, db2) := LeadSettings.get_settings db1 hub
    if st.auto_create_customer_on_win && l1.customer_id.isNone then
      let (c, l2, db3) := Lead.convert_to_customer db2 l1 now
      (.success l2 c.isSome, db3)
    else (.success l1 false, db2)

/-- Form data of the `lead_add` POST handler.  `name` is the already-stripped
name field; omitted select fields arrive as `none`. -/
structure LeadAddRequest where
  name : String
  pipeline_id : Option Nat := none
  stage_id : Option Nat := none
  customer_id : Option Nat := none
  email : String := ""
  phone : String := ""
  company : String := ""
  value : Int := 0
  expected_close_date : Option Int := none
  source : String := "manual"
  priority : String := "medium"
  notes : String := ""
deriving DecidableEq, Repr

/-- Outcome of the `lead_add` POST handler.  The two error branches re-render
with an error message (`Name is required` / `No stages available in this
pipeline`); `created` carries the created lead. -/
inductive LeadAddResult where
  | nameRequired
  | noStagesAvailable
  | notFound
  | created (lead : Lead)
deriving DecidableEq, Repr

def LeadAddResult.isCreated : LeadAddResult → Bool
  | .created _ => true
  | _ => false

/-- `lead_add` (POST) from `src/views.py`: the view first ensures the tenant has
a pipeline, rejects an empty (stripped) name, resolves the pipeline (explicit id
or the ensured default), resolves the stage (an explicit id is accepted as-is;
an omitted one falls back to the pipeline's lowest-order non-terminal stage,
whose absence is an error), optionally resolves a customer, then creates the
lead (model defaults give `status='open'`; `stage_changed_at` is `auto_now_add`)
and logs a `note` activity. -/
def lead_add (db : DB) (hub : Nat) (req : LeadAddRequest) (now : Int) :
    LeadAddResult × DB :=
  let (default_pipeline, db0) := ensure_default_pipeline db hub now
  if req.name == "" then (.nameRequired, db0)
  else
    let pipelineResolved : Option Pipeline :=
      match req.pipeline_id with
      | some pid => get_pipeline_or_404 db0 hub pid
      | none => some default_pipeline
    match pipelineResolved with
    | none => (.notFound, db0)
    | some lead_pipeline =>
      let stageResolved : Option (Option PipelineStage) :=
        match req.stage_id with
        | some sid =>
          match get_stage_or_404 db0 hub sid with
          | none => none
          | some s => some (some s)
        | none => some (firstNonTerminalStage db0 lead_pipeline.id)
      match stageResolved with
      | none => (.notFound, db0)
      | some none => (.noStagesAvailable, db0)
      | some (some lead_stage) =>
        let customer : Option Nat :=
          match req.customer_id with
          | some cid =>
            if db0.customers_available then
              (db0.customers.find? (fun c => c.id == cid && c.hub_id == hub && !c.is_deleted)).map Customer.id
            else none
          | none => none
        let l : Lead :=
          { id := db0.next_id, hub_id := hub, name := req.name, email := req.email
            phone := req.phone, company := req.company, value := req.value
            expected_close_date := req.expected_close_date
            pipeline_id := lead_pipeline.id, stage_id := lead_stage.id
            assigned_to := none, customer_id := customer
            source := req.source, priority := req.priority, notes := req.notes
            status := "open", won_date := none, lost_date := none
            loss_reason_id := none, stage_changed_at := now
            created_at := now, updated_at := now, is_deleted := false, deleted_at := none }
        let db1 := { db0 with leads := db0.leads ++ [l], next_id := db0.next_id + 1 }
        let db2 := createActivity db1 hub l.id "note" "Lead created"
          [("source", l.source)] now
        (.created l, db2)

/-- The sequence of individually committed writes `move_to_stage` performs when
the target stage has `is_won=true`.  The source wraps none of them in a
transaction (no `transaction.atomic`), so under the framework's default
autocommit each write commits on its own; a failure between writes leaves the
earlier writes committed. -/
def move_to_stage_won_writes (db0 : DB) (l : Lead) (new_stage : PipelineStage)
    (now : Int) : List (DB → DB) :=
  let old := oldStageInfo db0 l
  let l1 := { l with stage_id := new_stage.id, stage_changed_at := now, updated_at := now }
  let l2 := { l1 with status := "won", won_date := some now, updated_at := now }
  [fun db => saveLead db l1,
   fun db => createActivity db l.hub_id l.id "stage_change"
     ("Stage changed from " ++ old.1 ++ " to " ++ new_stage.name)
     [("old_stage", old.2), ("old_stage_name", old.1),
      ("new_stage", toString new_stage.id), ("new_stage_name", new_stage.name)] now,
   fun db => saveLead db l2,
   fun db => createActivity db l.hub_id l.id "status_change" "Lead marked as won"
     [("new_status", "won")] now]

/-- State after the first `k` committed writes (a failure is injected right
after the `k`-th write). -/
def runWrites (db : DB) (ws : List (DB → DB)) (k : Nat) : DB :=
  (ws.take k).foldl (fun d f => f d) db

/-- Sanity: running all four writes is exactly the full `move_to_stage` on a
won-flagged target stage. -/
theorem runWrites_all_eq_move_to_stage (db : DB) (l : Lead) (s : PipelineStage)
    (now : Int) (hw : s.is_won = true) :
    runWrites db (move_to_stage_won_writes db l s now) 4 =
      (Lead.move_to_stage db l s now).2 := by
  simp [runWrites, move_to_stage_won_writes, Lead.move_to_stage, Lead.mark_won, hw,
    saveLead, createActivity]

/-! Helper lemmas about persistence. -/

theorem mem_saveLead (db : DB) (x l : Lead) (hm : x ∈ db.leads) (hid : x.id = l.id) :
    l ∈ (saveLead db l).leads := by
  simp only [saveLead]
  exact List.mem_map.mpr ⟨x, hm, by simp [hid]⟩

theorem mem_saveLead_other (db : DB) (x l : Lead) (hm : x ∈ db.leads)
    (hid : x.id ≠ l.id) : x ∈ (saveLead db l).leads := by
  simp only [saveLead]
  exact List.mem_map.mpr ⟨x, hm, by simp [hid]⟩

theorem createActivity_leads (db : DB) (hub lead : Nat) (ty descr : String)
    (meta : List (String × String)) (now : Int) :
    (createActivity db hub lead ty descr meta now).leads = db.leads := rfl

/-- A concrete open lead shared by the closed witness instances below. -/
def sampleLead : Lead :=
  { id := 10, hub_id := 0, name := "Acme", email := "", phone := "", company := ""
    value := 500, expected_close_date := none, pipeline_id := 1, stage_id := 2
    assigned_to := none, customer_id := none, source := "manual", priority := "medium"
    notes := "", status := "open", won_date := none, lost_date := none
    loss_reason_id := none, stage_changed_at := 0, created_at := 0, updated_at := 0
    is_deleted := false, deleted_at := none }

/-- A concrete pipeline shared by the closed witness instances below. -/
def samplePipeline : Pipeline :=
  { id := 1, hub_id := 0, name := "Main", description := "", is_default := true
    is_active := true, is_deleted := false, deleted_at := none
    created_at := 0, updated_at := 0 }

/-- A concrete non-terminal stage of `samplePipeline`. -/
def sampleStageNew : PipelineStage :=
  { id := 2, hub_id := 0, pipeline_id := 1, name := "New", order := 10
    probability := 10, color := "info", is_won := false, is_lost := false
    is_deleted := false, deleted_at := none }

/-- A concrete won-flagged stage of `samplePipeline`. -/
def sampleStageWon : PipelineStage :=
  { id := 3, hub_id := 0, pipeline_id := 1, name := "Won", order := 60
    probability := 100, color := "success", is_won := true, is_lost := false
    is_deleted := false, deleted_at := none }

/-- C6: `mark_won` is unconditional and not idempotent.  For any lead in the
store (whatever its current status), two `mark_won` calls at times `t1` then
`t2` leave `status='won'`, re-stamp `won_date` with the later time `t2`, keep
the re-stamped lead persisted, and append two `status_change` activities with
metadata `new_status='won'` on top of however many the lead already had. -/
theorem mark_won_not_idempotent (db : DB) (l : Lead) (t1 t2 : Int)
    (hm : l ∈ db.leads) :
    ((Lead.mark_won (Lead.mark_won db l t1).2 (Lead.mark_won db l t1).1 t2).1.status = "won") ∧
    ((Lead.mark_won (Lead.mark_won db l t1).2 (Lead.mark_won db l t1).1 t2).1.won_date = some t2) ∧
    ((Lead.mark_won (Lead.mark_won db l t1).2 (Lead.mark_won db l t1).1 t2).1 ∈
      (Lead.mark_won (Lead.mark_won db l t1).2 (Lead.mark_won db l t1).1 t2).2.leads) ∧
    (activityCountMeta (Lead.mark_won (Lead.mark_won db l t1).2 (Lead.mark_won db l t1).1 t2).2
        l.id "status_change" [("new_status", "won")] =
      activityCountMeta db l.id "status_change" [("new_status", "won")] + 2) := by
  refine ⟨rfl, rfl, ?_, ?_⟩
  · have h1 : (Lead.mark_won db l t1).1 ∈ (Lead.mark_won db l t1).2.leads := by
      simp only [Lead.mark_won, createActivity_leads]
      exact mem_saveLead db l _ hm rfl
    simp only [Lead.mark_won, createActivity_leads]
    exact mem_saveLead _ _ _ h1 rfl
  · simp [Lead.mark_won, activityCountMeta, createActivity, saveLead, List.filter_append]

/-- C6 witness at a concrete store and times 5 then 9. -/
theorem mark_won_not_idempotent_witness :
    (Lead.mark_won
        (Lead.mark_won { emptyDB with leads := [sampleLead] } sampleLead 5).2
        (Lead.mark_won { emptyDB with leads := [sampleLead] } sampleLead 5).1 9).1.won_date =
      some 9 :=
  (mark_won_not_idempotent { emptyDB with leads := [sampleLead] } sampleLead 5 9
    (by decide)).2.1

/-- C8: `days_open` branches on status exactly as specified: elapsed whole days
(floor) from creation to now when open, to `won_date` when won, to `lost_date`
when lost, and 0 for any other status; a lead won exactly 3 days after creation
reports 3, a still-open lead queried exactly 3 days after creation reports 3,
and the value is never negative when the dates are monotonic. -/
theorem days_open_spec :
    (∀ (l : Lead) (now : Int), l.status = "open" →
        Lead.days_open l now = (now - l.created_at).fdiv 86400) ∧
    (∀ (l : Lead) (now w : Int), l.status = "won" → l.won_date = some w →
        Lead.days_open l now = (w - l.created_at).fdiv 86400) ∧
    (∀ (l : Lead) (now w : Int), l.status = "lost" → l.lost_date = some w →
        Lead.days_open l now = (w - l.created_at).fdiv 86400) ∧
    (∀ (l : Lead) (now : Int), l.status ≠ "open" → l.status ≠ "won" →
        l.status ≠ "lost" → Lead.days_open l now = 0) ∧
    (∀ (l : Lead) (now : Int), l.status = "won" →
        l.won_date = some (l.created_at + 3 * 86400) → Lead.days_open l now = 3) ∧
    (∀ (l : Lead), l.status = "open" →
        Lead.days_open l (l.created_at + 3 * 86400) = 3) ∧
    (∀ (l : Lead) (now : Int), l.status = "open" → l.created_at ≤ now →
        0 ≤ Lead.days_open l now) ∧
    (∀ (l : Lead) (now w : Int), l.status = "won" → l.won_date = some w →
        l.created_at ≤ w → 0 ≤ Lead.days_open l now) ∧
    (∀ (l : Lead) (now w : Int), l.status = "lost" → l.lost_date = some w →
        l.created_at ≤ w → 0 ≤ Lead.days_open l now) := by
  have hthree : ∀ c : Int, (c + 3 * 86400 - c).fdiv 86400 = 3 := by
    intro c
    have : c + 3 * 86400 - c = 259200 := by ring
    rw [this]
    decide
  refine ⟨?_, ?_, ?_, ?_, ?_, ?_, ?_, ?_, ?_⟩
  · intro l now h; simp [Lead.days_open, h]
  · intro l now w h hw; simp [Lead.days_open, h, hw]
  · intro l now w h hw; simp [Lead.days_open, h, hw]
  · intro l now h1 h2 h3
    simp [Lead.days_open, (by simpa using h1 : (l.status == "open") = false),
      (by simpa using h2 : (l.status == "won") = false),
      (by simpa using h3 : (l.status == "lost") = false)]
  · intro l now h hw; simp [Lead.days_open, h, hw, hthree]
  · intro l h; simp [Lead.days_open, h, hthree]
  · intro l now h hle
    simp only [Lead.days_open, h]
    simp only [show ("open" == "open") = true from rfl, if_true]
    exact Int.fdiv_nonneg (by omega) (by omega)
  · intro l now w h hw hle
    simp only [Lead.days_open, h, hw]
    norm_num
    exact Int.fdiv_nonneg (by omega) (by omega)
  · intro l now w h hw hle
    simp only [Lead.days_open, h, hw]
    norm_num
    exact Int.fdiv_nonneg (by omega) (by omega)

/-- C8 witness: a lead created at 0 and won at 259200 (3 days later) reports
`days_open = 3` at any query time. -/
theorem days_open_spec_witness :
    Lead.days_open
      { sampleLead with status := "won", won_date := some 259200 } 999999 = 3 :=
  days_open_spec.2.2.2.2.1
    { sampleLead with status := "won", won_date := some 259200 } 999999 rfl (by decide)

/-- C9: invoking `lead_move_stage` with the lead's own current stage id is a
complete no-op on the state (the view compares ids before calling
`move_to_stage`, so no activity is appended, `stage_changed_at` is untouched and
no won/lost cascade fires — the target stage's `is_won`/`is_lost` flags are
unconstrained here), and the call still returns success carrying the lead's
current status. -/
theorem lead_move_stage_same_stage_noop (db : DB) (hub lead_id : Nat) (now : Int)
    (l : Lead) (s : PipelineStage)
    (hl : get_lead_or_404 db hub lead_id = some l)
    (hs : get_stage_or_404 db hub l.stage_id = some s) :
    lead_move_stage db hub lead_id (some l.stage_id) now =
      (MoveStageResult.success l.id l.stage_id l.status, db) := by
  have hsid : s.id = l.stage_id := by
    have := List.find?_some hs
    simp only [Bool.and_eq_true, beq_iff_eq] at this
    exact this.1.1
  simp [lead_move_stage, hl, hs, hsid]

/-- Concrete store for the C9 witness: one open lead whose current stage is
the won-flagged stage 3. -/
def dbW9 : DB :=
  { emptyDB with
    leads := [{ sampleLead with stage_id := 3 }]
    stages := [sampleStageWon] }

/-- C9 witness: the lead's current stage is the won-flagged stage 3, and the
call changes nothing and reports status `open`. -/
theorem lead_move_stage_same_stage_noop_witness :
    lead_move_stage dbW9 0 10 (some 3) 7 = (MoveStageResult.success 10 3 "open", dbW9) :=
  lead_move_stage_same_stage_noop dbW9 0 10 7 { sampleLead with stage_id := 3 }
    sampleStageWon (by decide) (by decide)

/-- C10: `move_to_stage` only writes the stage pointer, `stage_changed_at`,
`updated_at` and (through the won/lost cascade) the status fields: the lead's
pipeline reference, name, value, customer link, priority, source and notes are
unchanged, other rows and tables are unchanged, and moving to a stage of a
different pipeline yields a lead whose stage does not belong to its pipeline. -/
theorem move_to_stage_frame (db : DB) (l : Lead) (s : PipelineStage) (now : Int) :
    ((Lead.move_to_stage db l s now).1.pipeline_id = l.pipeline_id) ∧
    ((Lead.move_to_stage db l s now).1.name = l.name) ∧
    ((Lead.move_to_stage db l s now).1.value = l.value) ∧
    ((Lead.move_to_stage db l s now).1.customer_id = l.customer_id) ∧
    ((Lead.move_to_stage db l s now).1.priority = l.priority) ∧
    ((Lead.move_to_stage db l s now).1.source = l.source) ∧
    ((Lead.move_to_stage db l s now).1.notes = l.notes) ∧
    ((Lead.move_to_stage db l s now).1.stage_id = s.id) ∧
    ((Lead.move_to_stage db l s now).2.pipelines = db.pipelines) ∧
    ((Lead.move_to_stage db l s now).2.stages = db.stages) ∧
    ((Lead.move_to_stage db l s now).2.settings = db.settings) ∧
    ((Lead.move_to_stage db l s now).2.customers = db.customers) ∧
    (∀ x ∈ db.leads, x.id ≠ l.id → x ∈ (Lead.move_to_stage db l s now).2.leads) ∧
    (s.pipeline_id ≠ l.pipeline_id →
      (Lead.move_to_stage db l s now).1.pipeline_id ≠ s.pipeline_id) := by
  by_cases hw : s.is_won
  case pos =>
    refine ⟨?_, ?_, ?_, ?_, ?_, ?_, ?_, ?_, ?_, ?_, ?_, ?_, ?_, ?_⟩ <;>
      simp only [Lead.move_to_stage, Lead.mark_won, hw, if_true, createActivity_leads]
    all_goals try rfl
    · intro x hx hne
      exact mem_saveLead_other _ x _ (mem_saveLead_other _ x _ hx hne) hne
    · intro hne
      exact Ne.symm hne
  case neg =>
    by_cases hlost : s.is_lost
    case pos =>
      refine ⟨?_, ?_, ?_, ?_, ?_, ?_, ?_, ?_, ?_, ?_, ?_, ?_, ?_, ?_⟩ <;>
        simp only [Lead.move_to_stage, Lead.mark_lost, hw, hlost, if_true,
          Bool.false_eq_true, if_false, createActivity_leads]
      all_goals try rfl
      · intro x hx hne
        exact mem_saveLead_other _ x _ (mem_saveLead_other _ x _ hx hne) hne
      · intro hne
        exact Ne.symm hne
    case neg =>
      refine ⟨?_, ?_, ?_, ?_, ?_, ?_, ?_, ?_, ?_, ?_, ?_, ?_, ?_, ?_⟩ <;>
        simp only [Lead.move_to_stage, hw, hlost, Bool.false_eq_true, if_false,
          createActivity_leads]
      all_goals try rfl
      · intro x hx hne
        exact mem_saveLead_other _ x _ hx hne
      · intro hne
        exact Ne.symm hne

/-- C10 witness: moving `sampleLead` (pipeline 1) to a stage of pipeline 9
keeps `pipeline_id = 1`, so the resulting stage does not belong to the lead's
pipeline; the pipelines table is untouched. -/
theorem move_to_stage_frame_witness :
    ((Lead.move_to_stage { emptyDB with leads := [sampleLead] } sampleLead
        { sampleStageWon with id := 42, pipeline_id := 9 } 7).1.pipeline_id = 1) ∧
    ((Lead.move_to_stage { emptyDB with leads := [sampleLead] } sampleLead
        { sampleStageWon with id := 42, pipeline_id := 9 } 7).1.pipeline_id ≠ 9) ∧
    ((Lead.move_to_stage { emptyDB with leads := [sampleLead] } sampleLead
        { sampleStageWon with id := 42, pipeline_id := 9 } 7).2.pipelines =
      ({ emptyDB with leads := [sampleLead] } : DB).pipelines) := by
  have h := move_to_stage_frame { emptyDB with leads := [sampleLead] } sampleLead
    { sampleStageWon with id := 42, pipeline_id := 9 } 7
  exact ⟨h.1, h.2.2.2.2.2.2.2.2.2.2.2.2.2 (by decide), h.2.2.2.2.2.2.2.2.1⟩

/-- Number of non-deleted default pipelines of a hub. -/
def defaultPipelineCount (db : DB) (hub : Nat) : Nat :=
  (db.pipelines.filter (fun q => q.hub_id == hub && q.is_default && !q.is_deleted)).length

/-- Pointwise effect of the save's two row writes on the default-counting
predicate: after unsetting siblings and writing `p`, a row counts toward the
hub's non-deleted defaults exactly when it carried `p`'s primary key. -/
theorem unset_then_replace_counts (p : Pipeline) (hd : p.is_default = true)
    (hdel : p.is_deleted = false) (q : Pipeline) :
    ((replaceById p (unsetOtherDefault p q)).hub_id == p.hub_id &&
      (replaceById p (unsetOtherDefault p q)).is_default &&
      !(replaceById p (unsetOtherDefault p q)).is_deleted) = (q.id == p.id) := by
  by_cases hq : q.id = p.id
  · simp [replaceById, unsetOtherDefault, hq, hd, hdel]
  · cases h1 : (q.hub_id == p.hub_id) <;> cases h2 : q.is_default <;>
      cases h3 : q.is_deleted <;>
      simp [replaceById, unsetOtherDefault, hq, h1, h2, h3]

/-- Counting after both row writes reduces to counting rows that carry `p`'s
primary key. -/
theorem filter_unset_replace_length (p : Pipeline) (hd : p.is_default = true)
    (hdel : p.is_deleted = false) :
    ∀ l : List Pipeline,
      (((l.map (unsetOtherDefault p)).map (replaceById p)).filter
        (fun q => q.hub_id == p.hub_id && q.is_default && !q.is_deleted)).length =
      (l.filter (fun q => q.id == p.id)).length := by
  intro l
  induction l with
  | nil => rfl
  | cons q t ih =>
    simp only [List.map_cons, List.filter_cons]
    rw [unset_then_replace_counts p hd hdel q]
    cases hq : (q.id == p.id) <;> simp [hq, ih, -List.map_map]

/-- When no sibling carries `p`'s key, the unset pass leaves no counted row. -/
theorem filter_unset_length_zero (p : Pipeline) :
    ∀ l : List Pipeline, (∀ q ∈ l, q.id ≠ p.id) →
      ((l.map (unsetOtherDefault p)).filter
        (fun q => q.hub_id == p.hub_id && q.is_default && !q.is_deleted)).length = 0 := by
  intro l
  induction l with
  | nil => intro _; rfl
  | cons q t ih =>
    intro h
    have hq : q.id ≠ p.id := h q (List.mem_cons_self q t)
    have hrest := ih (fun x hx => h x (List.mem_cons_of_mem q hx))
    simp only [List.map_cons, List.filter_cons]
    have : ((unsetOtherDefault p q).hub_id == p.hub_id &&
        (unsetOtherDefault p q).is_default && !(unsetOtherDefault p q).is_deleted) = false := by
      cases h1 : (q.hub_id == p.hub_id) <;> cases h2 : q.is_default <;>
        cases h3 : q.is_deleted <;> simp [unsetOtherDefault, hq, h1, h2, h3]
    rw [this]
    simpa using hrest

/-- C2: saving a (live) pipeline with `is_default=true` unsets the flag on every
other pipeline of its hub, so after the save exactly one non-deleted pipeline of
that hub is the default — hence the invariant holds after each such save of any
sequence, whatever the prior state.  The only well-formedness assumption is that
at most one stored row carries the saved pipeline's primary key. -/
theorem pipeline_save_single_default (db : DB) (p : Pipeline)
    (hd : p.is_default = true) (hdel : p.is_deleted = false)
    (huniq : (db.pipelines.filter (fun q => q.id == p.id)).length ≤ 1) :
    defaultPipelineCount (Pipeline.save db p) p.hub_id = 1 := by
  simp only [Pipeline.save, hd, if_true]
  by_cases hany : (List.map (unsetOtherDefault p) db.pipelines).any
      (fun q => q.id == p.id) = true
  · simp only [hany, if_true, defaultPipelineCount]
    rw [filter_unset_replace_length p hd hdel]
    have hex : ∃ q ∈ db.pipelines, q.id = p.id := by
      rcases List.any_eq_true.mp hany with ⟨x, hx, hpx⟩
      rcases List.mem_map.mp hx with ⟨q, hq, rfl⟩
      refine ⟨q, hq, ?_⟩
      by_cases hcnd : (q.hub_id == p.hub_id && q.is_default && !q.is_deleted &&
          q.id != p.id) = true
      · simpa [unsetOtherDefault, hcnd] using hpx
      · simpa [unsetOtherDefault, hcnd] using hpx
    rcases hex with ⟨q, hq, hqid⟩
    have hmem : q ∈ db.pipelines.filter (fun q => q.id == p.id) :=
      List.mem_filter.mpr ⟨hq, by simp [hqid]⟩
    have hpos : 0 < (db.pipelines.filter (fun q => q.id == p.id)).length :=
      List.length_pos.mpr (fun hnil => by simp [hnil] at hmem)
    omega
  · simp only [Bool.not_eq_true] at hany
    simp only [hany, Bool.false_eq_true, if_false, defaultPipelineCount]
    have hall : ∀ q ∈ db.pipelines, q.id ≠ p.id := by
      intro q hq hqe
      have := List.any_eq_false.mp hany (unsetOtherDefault p q)
        (List.mem_map.mpr ⟨q, hq, rfl⟩)
      by_cases hcnd : (q.hub_id == p.hub_id && q.is_default && !q.is_deleted &&
          q.id != p.id) = true
      · simp [unsetOtherDefault, hcnd, hqe] at this
      · simp [unsetOtherDefault, hcnd, hqe] at this
    rw [List.filter_append, List.length_append,
      filter_unset_length_zero p db.pipelines hall]
    simp [hd, hdel]

/-- C2 witness: a hub with two stored defaults (an anomalous prior state) is
healed to exactly one by saving a third pipeline as default. -/
theorem pipeline_save_single_default_witness :
    defaultPipelineCount
      (Pipeline.save
        { emptyDB with pipelines :=
            [samplePipeline, { samplePipeline with id := 2, name := "B" }] }
        { samplePipeline with id := 7, name := "C" }) 0 = 1 :=
  pipeline_save_single_default
    { emptyDB with pipelines :=
        [samplePipeline, { samplePipeline with id := 2, name := "B" }] }
    { samplePipeline with id := 7, name := "C" } rfl rfl (by decide)

/-- C7 (amended): soft-deleting a lead sets `is_deleted=true` and
`deleted_at=now()` without removing the row — the deleted row disappears from
the default tenant scope but is still returned by the including-deleted view —
while soft-deleting an already-deleted record is rejected with a NotFound error
(the endpoint resolves its target in the non-deleted scope), not treated as a
silent no-op. -/
theorem lead_delete_spec :
    (∀ (db : DB) (hub lead_id : Nat) (now : Int) (l : Lead),
      get_lead_or_404 db hub lead_id = some l →
      (lead_delete db hub lead_id now).1 = DeleteResult.ok ∧
      (lead_delete db hub lead_id now).2.leads.length = db.leads.length ∧
      { l with is_deleted := true, deleted_at := some now, updated_at := now } ∈
        leadsAllObjects (lead_delete db hub lead_id now).2 hub ∧
      (∀ x ∈ leadsDefaultScope (lead_delete db hub lead_id now).2 hub,
        x.id ≠ lead_id)) ∧
    (∀ (db : DB) (hub lead_id : Nat) (now : Int),
      get_lead_or_404 db hub lead_id = none →
      lead_delete db hub lead_id now = (DeleteResult.notFound, db)) := by
  constructor
  · intro db hub lead_id now l hl
    have hp := List.find?_some hl
    simp only [Bool.and_eq_true, beq_iff_eq, Bool.not_eq_true'] at hp
    have hlid : l.id = lead_id := hp.1.1
    have hlhub : l.hub_id = hub := hp.1.2
    have hmem : l ∈ db.leads := List.mem_of_find?_eq_some hl
    refine ⟨by simp [lead_delete, hl], ?_, ?_, ?_⟩
    · simp [lead_delete, hl, saveLead]
    · simp only [lead_delete, hl, leadsAllObjects]
      refine List.mem_filter.mpr ⟨?_, by simp [hlhub]⟩
      exact mem_saveLead db l _ hmem rfl
    · intro x hx hxid
      simp only [lead_delete, hl, leadsDefaultScope, saveLead] at hx
      have hx' := List.mem_filter.mp hx
      rcases List.mem_map.mp hx'.1 with ⟨y, _, hyx⟩
      by_cases hy : (y.id == l.id) = true
      · rw [if_pos hy] at hyx
        have : x.is_deleted = true := by rw [← hyx]
        have hnd := hx'.2
        simp only [Bool.and_eq_true, Bool.not_eq_true'] at hnd
        rw [this] at hnd
        exact absurd hnd.2 (by simp)
      · rw [if_neg hy] at hyx
        rw [← hyx] at hxid
        simp only [beq_iff_eq] at hy
        rw [hlid] at hy
        exact hy hxid
  · intro db hub lead_id now hl
    simp [lead_delete, hl]

/-- Concrete store for the C7 counterexample: the only lead of hub 0 is already
soft-deleted. -/
def dbX7 : DB :=
  { emptyDB with
    leads := [{ sampleLead with id := 1, is_deleted := true, deleted_at := some 3 }] }

/-- C7 counterexample: hub 0 holds exactly one lead, id 1, already deleted; a
second soft-delete of it is answered with NotFound (an error response), not
performed as a no-op — refuting the claim that deleting an already-deleted
record is a no-op rather than an error. -/
theorem lead_delete_already_deleted_errors :
    dbX7.leads.map Lead.id = [1] ∧
    dbX7.leads.map Lead.is_deleted = [true] ∧
    (lead_delete dbX7 0 1 5).1 = DeleteResult.notFound := by
  refine ⟨rfl, rfl, ?_⟩
  simp [lead_delete, get_lead_or_404, dbX7, sampleLead, List.find?]

/-- C7 witness: deleting the (live) sample lead succeeds, keeps the row count,
hides the row from the default scope and keeps it in the all-objects view. -/
theorem lead_delete_spec_witness :
    (lead_delete { emptyDB with leads := [sampleLead] } 0 10 5).1 = DeleteResult.ok ∧
    (lead_delete { emptyDB with leads := [sampleLead] } 0 10 5).2.leads.length =
      ({ emptyDB with leads := [sampleLead] } : DB).leads.length := by
  have h := lead_delete_spec.1 { emptyDB with leads := [sampleLead] } 0 10 5
    sampleLead (by decide)
  exact ⟨h.1, h.2.1⟩

/-- C1 (amended): moving an open lead to a stage with `is_won=true` sets
`status='won'` and `won_date=now()`, points the lead at the target stage,
persists the mutated lead, and appends exactly one `stage_change` and exactly
one `status_change` activity.  The transition is however not all-or-nothing in
the source (no transaction wraps the four writes): the companion counterexample
exhibits a fault point after the stage write where the stage change is already
committed while the status write never commits. -/
theorem move_to_stage_won_effects (db : DB) (l : Lead) (s : PipelineStage)
    (now : Int) (_hopen : l.status = "open") (hw : s.is_won = true)
    (hm : l ∈ db.leads) :
    ((Lead.move_to_stage db l s now).1.status = "won") ∧
    ((Lead.move_to_stage db l s now).1.won_date = some now) ∧
    ((Lead.move_to_stage db l s now).1.stage_id = s.id) ∧
    ((Lead.move_to_stage db l s now).1 ∈ (Lead.move_to_stage db l s now).2.leads) ∧
    (activityCount (Lead.move_to_stage db l s now).2 l.id "stage_change" =
      activityCount db l.id "stage_change" + 1) ∧
    (activityCount (Lead.move_to_stage db l s now).2 l.id "status_change" =
      activityCount db l.id "status_change" + 1) := by
  refine ⟨?_, ?_, ?_, ?_, ?_, ?_⟩
  · simp [Lead.move_to_stage, Lead.mark_won, hw]
  · simp [Lead.move_to_stage, Lead.mark_won, hw]
  · simp [Lead.move_to_stage, Lead.mark_won, hw]
  · simp only [Lead.move_to_stage, Lead.mark_won, hw, if_true, createActivity_leads]
    exact mem_saveLead _ _ _ (mem_saveLead db l _ hm rfl) rfl
  · simp [Lead.move_to_stage, Lead.mark_won, hw, activityCount, createActivity,
      saveLead, List.filter_append]
  · simp [Lead.move_to_stage, Lead.mark_won, hw, activityCount, createActivity,
      saveLead, List.filter_append]

/-- Concrete store for the C1 scenario: one open lead at the non-terminal stage
2 of pipeline 1, and the won-flagged stage 3. -/
def dbC1 : DB :=
  { emptyDB with
    pipelines := [samplePipeline]
    stages := [sampleStageNew, sampleStageWon]
    leads := [sampleLead]
    next_id := 100 }

/-- C1 counterexample (to all-or-nothing): inject a failure right after the
first committed write of `move_to_stage` (the stage write).  The stage change is
then committed — the stored lead points at the won-flagged stage 3 — while the
status write never committed: the stored status is still `open`, `won_date` is
unset and no `status_change` activity exists.  The stage change and the status
change are therefore not all-or-nothing. -/
theorem move_to_stage_won_not_atomic :
    ((runWrites dbC1 (move_to_stage_won_writes dbC1 sampleLead sampleStageWon 50) 1).leads.map
      Lead.stage_id = [3]) ∧
    ((runWrites dbC1 (move_to_stage_won_writes dbC1 sampleLead sampleStageWon 50) 1).leads.map
      Lead.status = ["open"]) ∧
    ((runWrites dbC1 (move_to_stage_won_writes dbC1 sampleLead sampleStageWon 50) 1).leads.map
      Lead.won_date = [none]) ∧
    (activityCount
      (runWrites dbC1 (move_to_stage_won_writes dbC1 sampleLead sampleStageWon 50) 1)
      10 "status_change" = 0) ∧
    sampleStageWon.is_won = true ∧ sampleLead.status = "open" := by
  refine ⟨?_, ?_, ?_, ?_, rfl, rfl⟩ <;> rfl

/-- C1 witness: the complete (unfaulted) move of the sample open lead to the
won stage lands status `won`, `won_date = 50`, stage 3, and one activity of
each kind. -/
theorem move_to_stage_won_effects_witness :
    ((Lead.move_to_stage dbC1 sampleLead sampleStageWon 50).1.status = "won") ∧
    ((Lead.move_to_stage dbC1 sampleLead sampleStageWon 50).1.won_date = some 50) ∧
    ((Lead.move_to_stage dbC1 sampleLead sampleStageWon 50).1.stage_id = 3) ∧
    (activityCount (Lead.move_to_stage dbC1 sampleLead sampleStageWon 50).2
      10 "stage_change" = 1) ∧
    (activityCount (Lead.move_to_stage dbC1 sampleLead sampleStageWon 50).2
      10 "status_change" = 1) := by
  have h := move_to_stage_won_effects dbC1 sampleLead sampleStageWon 50 rfl rfl
    (by decide)
  exact ⟨h.1, h.2.1, h.2.2.1, h.2.2.2.2.1, h.2.2.2.2.2⟩

/-! Projection facts used when reasoning through `lead_won`: activity writes and
lead writes touch neither the settings table, the customers table nor the
collaborator flags. -/

@[simp] theorem saveLead_settings (db : DB) (l : Lead) :
    (saveLead db l).settings = db.settings := rfl

@[simp] theorem saveLead_customers (db : DB) (l : Lead) :
    (saveLead db l).customers = db.customers := rfl

@[simp] theorem saveLead_customers_available (db : DB) (l : Lead) :
    (saveLead db l).customers_available = db.customers_available := rfl

@[simp] theorem saveLead_customer_create_fails (db : DB) (l : Lead) :
    (saveLead db l).customer_create_fails = db.customer_create_fails := rfl

@[simp] theorem createActivity_settings (db : DB) (hub lead : Nat) (ty descr : String)
    (meta : List (String × String)) (now : Int) :
    (createActivity db hub lead ty descr meta now).settings = db.settings := rfl

@[simp] theorem createActivity_customers (db : DB) (hub lead : Nat) (ty descr : String)
    (meta : List (String × String)) (now : Int) :
    (createActivity db hub lead ty descr meta now).customers = db.customers := rfl

@[simp] theorem createActivity_customers_available (db : DB) (hub lead : Nat)
    (ty descr : String) (meta : List (String × String)) (now : Int) :
    (createActivity db hub lead ty descr meta now).customers_available =
      db.customers_available := rfl

@[simp] theorem createActivity_customer_create_fails (db : DB) (hub lead : Nat)
    (ty descr : String) (meta : List (String × String)) (now : Int) :
    (createActivity db hub lead ty descr meta now).customer_create_fails =
      db.customer_create_fails := rfl

/-- C5: marking a customer-less lead won in a tenant whose settings have
`auto_create_customer_on_win=true` triggers exactly one customer-creation call —
one new customer row, linked to the lead — and when the customers collaborator
is unavailable (module missing) or its create call fails, `convert_to_customer`
yields no customer instead of raising and the lead still ends `status='won'`
with its customer link left null. -/
theorem lead_won_auto_convert (db : DB) (hub lead_id : Nat) (now : Int) (l : Lead)
    (st : LeadSettings)
    (hl : get_lead_or_404 db hub lead_id = some l)
    (hc : l.customer_id = none)
    (hst : db.settings.find? (fun s => s.hub_id == hub && !s.is_deleted) = some st)
    (hauto : st.auto_create_customer_on_win = true) :
    (db.customers_available = true → db.customer_create_fails = false →
      (∃ lw, (lead_won db hub lead_id now).1 = WonResult.success lw true ∧
        lw.status = "won" ∧
        (∃ c ∈ (lead_won db hub lead_id now).2.customers, lw.customer_id = some c.id) ∧
        lw ∈ (lead_won db hub lead_id now).2.leads) ∧
      (lead_won db hub lead_id now).2.customers.length = db.customers.length + 1) ∧
    (db.customers_available = false ∨ db.customer_create_fails = true →
      (∃ lw, (lead_won db hub lead_id now).1 = WonResult.success lw false ∧
        lw.status = "won" ∧ lw.customer_id = none ∧
        lw ∈ (lead_won db hub lead_id now).2.leads) ∧
      (lead_won db hub lead_id now).2.customers = db.customers) := by
  have hmem : l ∈ db.leads := List.mem_of_find?_eq_some hl
  have hrun : lead_won db hub lead_id now =
      (let l1 : Lead := { l with status := "won", won_date := some now, updated_at := now }
       let db1 : DB := createActivity (saveLead db l1) l.hub_id l.id "status_change"
         "Lead marked as won" [("new_status", "won")] now
       let p3 := Lead.convert_to_customer db1 l1 now
       (WonResult.success p3.2.1 p3.1.isSome, p3.2.2)) := by
    simp only [lead_won, hl, Lead.mark_won, LeadSettings.get_settings]
    rw [show (createActivity
        (saveLead db { l with status := "won", won_date := some now, updated_at := now })
        l.hub_id l.id "status_change" "Lead marked as won"
        [("new_status", "won")] now).settings = db.settings from rfl]
    rw [hst]
    simp [hauto, hc]
  constructor
  · intro hav hnf
    rw [hrun]
    simp only [Lead.convert_to_customer, createActivity_customers_available,
      saveLead_customers_available, createActivity_customer_create_fails,
      saveLead_customer_create_fails, hav, hnf, Bool.not_false, Bool.and_self,
      if_true]
    refine ⟨⟨_, rfl, rfl, ?_, ?_⟩, ?_⟩
    · refine ⟨⟨(createActivity (saveLead db
          { l with status := "won", won_date := some now, updated_at := now })
          l.hub_id l.id "status_change" "Lead marked as won"
          [("new_status", "won")] now).next_id, l.hub_id,
          (if l.company == "" then l.name else l.company), l.email, l.phone,
          false⟩, ?_, rfl⟩
      simp
    · simp only [createActivity_leads]
      have h1 : ({ l with status := "won", won_date := some now, updated_at := now } : Lead) ∈
          (saveLead db { l with status := "won", won_date := some now, updated_at := now }).leads :=
        mem_saveLead db l _ hmem rfl
      exact mem_saveLead _ _ _ h1 rfl
    · simp
  · intro hfail
    rw [hrun]
    have hcond : ((createActivity (saveLead db
        { l with status := "won", won_date := some now, updated_at := now })
        l.hub_id l.id "status_change" "Lead marked as won"
        [("new_status", "won")] now).customers_available &&
        !(createActivity (saveLead db
        { l with status := "won", won_date := some now, updated_at := now })
        l.hub_id l.id "status_change" "Lead marked as won"
        [("new_status", "won")] now).customer_create_fails) = false := by
      rcases hfail with h | h <;> simp [h]
    simp only [Lead.convert_to_customer, hcond, Bool.false_eq_true, if_false]
    refine ⟨⟨_, rfl, rfl, hc, ?_⟩, ?_⟩
    · simp only [createActivity_leads]
      exact mem_saveLead db l _ hmem rfl
    · simp

/-- Settings row with auto-conversion enabled, for the C5 witness. -/
def stW5 : LeadSettings :=
  { hub_id := 0, default_pipeline_id := none, auto_create_customer_on_win := true
    default_source := "manual", is_deleted := false }

/-- C5 witness store with the customers collaborator available. -/
def dbW5a : DB :=
  { emptyDB with leads := [sampleLead], settings := [stW5] }

/-- C5 witness store with the customers collaborator unavailable. -/
def dbW5b : DB :=
  { emptyDB with leads := [sampleLead], settings := [stW5], customers_available := false }

/-- C5 witness: with the collaborator available, winning the sample lead adds
exactly one customer; with it unavailable, the customers table is untouched. -/
theorem lead_won_auto_convert_witness :
    ((lead_won dbW5a 0 10 7).2.customers.length = dbW5a.customers.length + 1) ∧
    ((lead_won dbW5b 0 10 7).2.customers = dbW5b.customers) :=
  ⟨((lead_won_auto_convert dbW5a 0 10 7 sampleLead stW5 (by decide) rfl (by decide)
      rfl).1 rfl rfl).2,
   ((lead_won_auto_convert dbW5b 0 10 7 sampleLead stW5 (by decide) rfl (by decide)
      rfl).2 (Or.inl rfl)).2⟩

/-- Computed form of the fresh-tenant bootstrap: with no pipeline or settings
row of the hub and no key collision, `ensure_default_pipeline` returns the
"Sales Pipeline" record and the state extended by it, its seven standard
stages and the hub's settings default.  Shared by the C3 and C4 theorems. -/
theorem ensure_default_pipeline_fresh (db : DB) (hub : Nat) (now : Int)
    (hp : ∀ q ∈ db.pipelines, q.hub_id ≠ hub)
    (hpid : ∀ q ∈ db.pipelines, q.id ≠ db.next_id)
    (hst : ∀ s ∈ db.settings, s.hub_id ≠ hub) :
    ensure_default_pipeline db hub now =
      ({ id := db.next_id, hub_id := hub, name := "Sales Pipeline"
         description := "Default sales pipeline", is_default := true, is_active := true
         is_deleted := false, deleted_at := none, created_at := now, updated_at := now },
       { pipelines := db.pipelines ++
           [{ id := db.next_id, hub_id := hub, name := "Sales Pipeline"
              description := "Default sales pipeline", is_default := true
              is_active := true, is_deleted := false, deleted_at := none
              created_at := now, updated_at := now }]
         stages := db.stages ++
           [{ id := db.next_id + 1, hub_id := hub, pipeline_id := db.next_id
              name := "New", order := 10, probability := 10, color := "info"
              is_won := false, is_lost := false, is_deleted := false, deleted_at := none },
            { id := db.next_id + 2, hub_id := hub, pipeline_id := db.next_id
              name := "Contacted", order := 20, probability := 20, color := "primary"
              is_won := false, is_lost := false, is_deleted := false, deleted_at := none },
            { id := db.next_id + 3, hub_id := hub, pipeline_id := db.next_id
              name := "Qualified", order := 30, probability := 40, color := "primary"
              is_won := false, is_lost := false, is_deleted := false, deleted_at := none },
            { id := db.next_id + 4, hub_id := hub, pipeline_id := db.next_id
              name := "Proposal", order := 40, probability := 60, color := "warning"
              is_won := false, is_lost := false, is_deleted := false, deleted_at := none },
            { id := db.next_id + 5, hub_id := hub, pipeline_id := db.next_id
              name := "Negotiation", order := 50, probability := 80, color := "warning"
              is_won := false, is_lost := false, is_deleted := false, deleted_at := none },
            { id := db.next_id + 6, hub_id := hub, pipeline_id := db.next_id
              name := "Won", order := 60, probability := 100, color := "success"
              is_won := true, is_lost := false, is_deleted := false, deleted_at := none },
            { id := db.next_id + 7, hub_id := hub, pipeline_id := db.next_id
              name := "Lost", order := 70, probability := 0, color := "danger"
              is_won := false, is_lost := true, is_deleted := false, deleted_at := none }]
         leads := db.leads, activities := db.activities
         settings := db.settings ++
           [{ hub_id := hub, default_pipeline_id := some db.next_id
              auto_create_customer_on_win := false, default_source := "manual"
              is_deleted := false }]
         customers := db.customers, customers_available := db.customers_available
         customer_create_fails := db.customer_create_fails
         next_id := db.next_id + 8 }) := by
  have hfp : firstPipeline db hub = none := by
    simp only [firstPipeline]
    rw [List.filter_eq_nil_iff.mpr (fun q hq => by simp [hp q hq])]
    rfl
  have hmap : db.pipelines.map (unsetOtherDefault
      { id := db.next_id, hub_id := hub, name := "Sales Pipeline"
        description := "Default sales pipeline", is_default := true, is_active := true
        is_deleted := false, deleted_at := none, created_at := now, updated_at := now }) =
      db.pipelines := by
    have := List.map_congr_left (l := db.pipelines)
      (f := unsetOtherDefault
        { id := db.next_id, hub_id := hub, name := "Sales Pipeline"
          description := "Default sales pipeline", is_default := true, is_active := true
          is_deleted := false, deleted_at := none, created_at := now, updated_at := now })
      (g := id) (fun q hq => by simp [unsetOtherDefault, hp q hq])
    rw [this, List.map_id]
  have hany : db.pipelines.any (fun q => q.id == db.next_id) = false :=
    List.any_eq_false.mpr (fun q hq => by simp [hpid q hq])
  have hfind : db.settings.find? (fun s => s.hub_id == hub && !s.is_deleted) = none :=
    List.find?_eq_none.mpr (fun s hs => by simp [hst s hs])
  have hmapset : db.settings.map (fun x =>
      if x.hub_id == hub then
        { hub_id := hub, default_pipeline_id := some db.next_id
          auto_create_customer_on_win := false, default_source := "manual"
          is_deleted := false }
      else x) = db.settings := by
    have := List.map_congr_left (l := db.settings)
      (f := fun x =>
        if x.hub_id == hub then
          ({ hub_id := hub, default_pipeline_id := some db.next_id
             auto_create_customer_on_win := false, default_source := "manual"
             is_deleted := false } : LeadSettings)
        else x)
      (g := id) (fun s hs => by simp [hst s hs])
    rw [this, List.map_id]
  simp only [ensure_default_pipeline, hfp, createPipeline, Pipeline.save, hmap, hany,
    Bool.false_eq_true, if_false, if_true, default_stages, List.foldl, createStage,
    LeadSettings.get_settings, hfind, saveSettings, List.map_append, hmapset]
  simp [List.append_assoc]

/-- C3: for a fresh tenant (no pipeline, stage or settings row of that hub, and
no stored key colliding with the next allocated one), `ensure_default_pipeline`
creates the "Sales Pipeline" with `is_default=true` plus exactly the seven
standard stages (name/order/probability/color/terminal flags as fixed in the
source) and records it as the hub's settings default pipeline; a second call
returns the same pipeline id, changes nothing, and the hub still has exactly 7
stages. -/
theorem ensure_default_pipeline_spec (db : DB) (hub : Nat) (now : Int)
    (hp : ∀ q ∈ db.pipelines, q.hub_id ≠ hub)
    (hpid : ∀ q ∈ db.pipelines, q.id ≠ db.next_id)
    (hsid : ∀ s ∈ db.stages, s.pipeline_id ≠ db.next_id)
    (hshub : ∀ s ∈ db.stages, s.hub_id ≠ hub)
    (hst : ∀ s ∈ db.settings, s.hub_id ≠ hub) :
    ((ensure_default_pipeline db hub now).1.name = "Sales Pipeline") ∧
    ((ensure_default_pipeline db hub now).1.is_default = true) ∧
    ((ensure_default_pipeline db hub now).1.hub_id = hub) ∧
    (((ensure_default_pipeline db hub now).2.stages.filter
        (fun s => s.pipeline_id == (ensure_default_pipeline db hub now).1.id)).map
        (fun s => (s.name, s.order, s.probability, s.color, s.is_won, s.is_lost)) =
      [("New", 10, 10, "info", false, false),
       ("Contacted", 20, 20, "primary", false, false),
       ("Qualified", 30, 40, "primary", false, false),
       ("Proposal", 40, 60, "warning", false, false),
       ("Negotiation", 50, 80, "warning", false, false),
       ("Won", 60, 100, "success", true, false),
       ("Lost", 70, 0, "danger", false, true)]) ∧
    (∃ s ∈ (ensure_default_pipeline db hub now).2.settings, s.hub_id = hub ∧
      s.default_pipeline_id = some (ensure_default_pipeline db hub now).1.id) ∧
    ((ensure_default_pipeline (ensure_default_pipeline db hub now).2 hub now).1.id =
      (ensure_default_pipeline db hub now).1.id) ∧
    ((ensure_default_pipeline (ensure_default_pipeline db hub now).2 hub now).2 =
      (ensure_default_pipeline db hub now).2) ∧
    (((ensure_default_pipeline db hub now).2.stages.filter
        (fun s => s.hub_id == hub)).length = 7) := by
  have hrun1 := ensure_default_pipeline_fresh db hub now hp hpid hst
  rw [hrun1]
  have hfp2 : firstPipeline
      ({ pipelines := db.pipelines ++
           [{ id := db.next_id, hub_id := hub, name := "Sales Pipeline"
              description := "Default sales pipeline", is_default := true
              is_active := true, is_deleted := false, deleted_at := none
              created_at := now, updated_at := now }]
         stages := db.stages ++
           [{ id := db.next_id + 1, hub_id := hub, pipeline_id := db.next_id
              name := "New", order := 10, probability := 10, color := "info"
              is_won := false, is_lost := false, is_deleted := false, deleted_at := none },
            { id := db.next_id + 2, hub_id := hub, pipeline_id := db.next_id
              name := "Contacted", order := 20, probability := 20, color := "primary"
              is_won := false, is_lost := false, is_deleted := false, deleted_at := none },
            { id := db.next_id + 3, hub_id := hub, pipeline_id := db.next_id
              name := "Qualified", order := 30, probability := 40, color := "primary"
              is_won := false, is_lost := false, is_deleted := false, deleted_at := none },
            { id := db.next_id + 4, hub_id := hub, pipeline_id := db.next_id
              name := "Proposal", order := 40, probability := 60, color := "warning"
              is_won := false, is_lost := false, is_deleted := false, deleted_at := none },
            { id := db.next_id + 5, hub_id := hub, pipeline_id := db.next_id
              name := "Negotiation", order := 50, probability := 80, color := "warning"
              is_won := false, is_lost := false, is_deleted := false, deleted_at := none },
            { id := db.next_id + 6, hub_id := hub, pipeline_id := db.next_id
              name := "Won", order := 60, probability := 100, color := "success"
              is_won := true, is_lost := false, is_deleted := false, deleted_at := none },
            { id := db.next_id + 7, hub_id := hub, pipeline_id := db.next_id
              name := "Lost", order := 70, probability := 0, color := "danger"
              is_won := false, is_lost := true, is_deleted := false, deleted_at := none }]
         leads := db.leads, activities := db.activities
         settings := db.settings ++
           [{ hub_id := hub, default_pipeline_id := some db.next_id
              auto_create_customer_on_win := false, default_source := "manual"
              is_deleted := false }]
         customers := db.customers, customers_available := db.customers_available
         customer_create_fails := db.customer_create_fails
         next_id := db.next_id + 8 } : DB) hub =
      some { id := db.next_id, hub_id := hub, name := "Sales Pipeline"
             description := "Default sales pipeline", is_default := true
             is_active := true, is_deleted := false, deleted_at := none
             created_at := now, updated_at := now } := by
    simp only [firstPipeline, List.filter_append]
    rw [List.filter_eq_nil_iff.mpr (fun q hq => by simp [hp q hq])]
    simp [pipelineMin]
  refine ⟨rfl, rfl, rfl, ?_, ?_, ?_, ?_, ?_⟩
  · simp only [List.filter_append]
    rw [List.filter_eq_nil_iff.mpr (fun s hs => by simp [hsid s hs])]
    simp
  · exact ⟨{ hub_id := hub, default_pipeline_id := some db.next_id
             auto_create_customer_on_win := false, default_source := "manual"
             is_deleted := false }, by simp, rfl, rfl⟩
  · simp only [ensure_default_pipeline, hfp2]
  · simp only [ensure_default_pipeline, hfp2]
  · simp only [List.filter_append]
    rw [List.filter_eq_nil_iff.mpr (fun s hs => by simp [hshub s hs])]
    simp

/-- C3 witness at the empty store (fresh tenant 0): the bootstrap names the
pipeline, leaves exactly 7 stages for the hub, and the second call returns the
same pipeline id without changing the state. -/
theorem ensure_default_pipeline_spec_witness :
    ((ensure_default_pipeline emptyDB 0 5).1.name = "Sales Pipeline") ∧
    (((ensure_default_pipeline emptyDB 0 5).2.stages.filter
        (fun s => s.hub_id == 0)).length = 7) ∧
    ((ensure_default_pipeline (ensure_default_pipeline emptyDB 0 5).2 0 5).1.id =
      (ensure_default_pipeline emptyDB 0 5).1.id) ∧
    ((ensure_default_pipeline (ensure_default_pipeline emptyDB 0 5).2 0 5).2 =
      (ensure_default_pipeline emptyDB 0 5).2) := by
  have h := ensure_default_pipeline_spec emptyDB 0 5 (by decide) (by decide)
    (by decide) (by decide) (by decide)
  exact ⟨h.1, h.2.2.2.2.2.2.2, h.2.2.2.2.2.1, h.2.2.2.2.2.2.1⟩

/-- The stable minimum returned by `.order_by('order').first()` is an element of
the queried list. -/
theorem minByOrder_mem :
    ∀ (xs : List PipelineStage) (m : PipelineStage), minByOrder xs = some m → m ∈ xs := by
  intro xs
  induction xs with
  | nil => intro m h; cases h
  | cons s t ih =>
    intro m h
    simp only [minByOrder] at h
    cases ht : minByOrder t with
    | none =>
      rw [ht] at h
      simp only [Option.some.injEq] at h
      exact h ▸ List.mem_cons_self s t
    | some mt =>
      rw [ht] at h
      dsimp only at h
      by_cases hcmp : s.order ≤ mt.order
      · rw [if_pos hcmp] at h
        simp only [Option.some.injEq] at h
        exact h ▸ List.mem_cons_self s t
      · rw [if_neg hcmp] at h
        simp only [Option.some.injEq] at h
        exact h ▸ List.mem_cons_of_mem s (ih mt ht)

/-- The stage picked for an omitted stage field is a live non-terminal stage of
the requested pipeline. -/
theorem firstNonTerminalStage_spec (db : DB) (pid : Nat) (st0 : PipelineStage)
    (h : firstNonTerminalStage db pid = some st0) :
    st0.pipeline_id = pid ∧ st0.is_deleted = false ∧ st0.is_won = false ∧
      st0.is_lost = false := by
  have hm := minByOrder_mem _ _ h
  have hp := (List.mem_filter.mp hm).2
  simp only [Bool.and_eq_true, beq_iff_eq, Bool.not_eq_true'] at hp
  exact ⟨hp.1.1.1, hp.1.1.2, hp.1.2, hp.2⟩

/-- After a fresh-tenant bootstrap, the hub's first pipeline is exactly the
pipeline the bootstrap created. -/
theorem firstPipeline_after_fresh (db : DB) (hub : Nat) (now : Int)
    (hp : ∀ q ∈ db.pipelines, q.hub_id ≠ hub)
    (hpid : ∀ q ∈ db.pipelines, q.id ≠ db.next_id)
    (hst : ∀ s ∈ db.settings, s.hub_id ≠ hub) :
    firstPipeline (ensure_default_pipeline db hub now).2 hub =
      some (ensure_default_pipeline db hub now).1 := by
  rw [ensure_default_pipeline_fresh db hub now hp hpid hst]
  simp only [firstPipeline, List.filter_append]
  rw [List.filter_eq_nil_iff.mpr (fun q hq => by simp [hp q hq])]
  simp [pipelineMin]

/-- On a fresh tenant, running `lead_add` is the same as running it on the
already-bootstrapped state: the view's opening `_ensure_pipeline` call performs
the bootstrap and every later query runs against the bootstrapped state. -/
theorem lead_add_after_fresh (db : DB) (hub : Nat) (req : LeadAddRequest)
    (now : Int)
    (hp : ∀ q ∈ db.pipelines, q.hub_id ≠ hub)
    (hpid : ∀ q ∈ db.pipelines, q.id ≠ db.next_id)
    (hst : ∀ s ∈ db.settings, s.hub_id ≠ hub) :
    lead_add db hub req now =
      lead_add (ensure_default_pipeline db hub now).2 hub req now := by
  have h2 : ∀ X : DB, firstPipeline X hub = some (ensure_default_pipeline db hub now).1 →
      ensure_default_pipeline X hub now = ((ensure_default_pipeline db hub now).1, X) := by
    intro X hX
    simp [ensure_default_pipeline, hX]
  have h2s := h2 (ensure_default_pipeline db hub now).2
    (firstPipeline_after_fresh db hub now hp hpid hst)
  simp only [lead_add]
  rw [h2s]

/-- After a fresh-tenant bootstrap, the lowest-order non-terminal stage of the
created default pipeline is the "New" stage (order 10). -/
theorem firstNonTerminalStage_after_fresh (db : DB) (hub : Nat) (now : Int)
    (hp : ∀ q ∈ db.pipelines, q.hub_id ≠ hub)
    (hpid : ∀ q ∈ db.pipelines, q.id ≠ db.next_id)
    (hsid : ∀ s ∈ db.stages, s.pipeline_id ≠ db.next_id)
    (hst : ∀ s ∈ db.settings, s.hub_id ≠ hub) :
    firstNonTerminalStage (ensure_default_pipeline db hub now).2
        (ensure_default_pipeline db hub now).1.id =
      some { id := db.next_id + 1, hub_id := hub, pipeline_id := db.next_id
             name := "New", order := 10, probability := 10, color := "info"
             is_won := false, is_lost := false, is_deleted := false
             deleted_at := none } := by
  rw [ensure_default_pipeline_fresh db hub now hp hpid hst]
  simp only [firstNonTerminalStage, List.filter_append]
  rw [List.filter_eq_nil_iff.mpr (fun s hs => by simp [hsid s hs])]
  simp [minByOrder]

/-- C4 (amended): lead creation rejects an empty name; when the stage is
omitted and the target pipeline — whether explicitly chosen or the tenant
default — has no live non-terminal stage it fails with the no-stages error; and
in the normal path with pipeline and stage omitted it places the lead on the
tenant default pipeline at its lowest-order non-terminal stage, bootstrapping
the default pipeline first when the tenant has none, with `status='open'` and
`stage_changed_at=now()`.  (An explicitly supplied stage is accepted as-is —
even a terminal one in a pipeline without non-terminal stages — which is what
the companion counterexample shows.) -/
theorem lead_add_spec :
    (∀ (db : DB) (hub : Nat) (req : LeadAddRequest) (now : Int),
      req.name = "" → (lead_add db hub req now).1 = LeadAddResult.nameRequired) ∧
    (∀ (db : DB) (hub pid : Nat) (req : LeadAddRequest) (now : Int)
      (dp pl : Pipeline),
      req.name ≠ "" → firstPipeline db hub = some dp →
      req.pipeline_id = some pid → get_pipeline_or_404 db hub pid = some pl →
      req.stage_id = none → firstNonTerminalStage db pl.id = none →
      lead_add db hub req now = (LeadAddResult.noStagesAvailable, db)) ∧
    (∀ (db : DB) (hub : Nat) (req : LeadAddRequest) (now : Int)
      (dp : Pipeline) (st0 : PipelineStage),
      req.name ≠ "" → firstPipeline db hub = some dp →
      req.pipeline_id = none → req.stage_id = none → req.customer_id = none →
      firstNonTerminalStage db dp.id = some st0 →
      ∃ l, (lead_add db hub req now).1 = LeadAddResult.created l ∧
        l.pipeline_id = dp.id ∧ l.stage_id = st0.id ∧
        st0.is_won = false ∧ st0.is_lost = false ∧
        l.status = "open" ∧ l.stage_changed_at = now ∧
        l ∈ (lead_add db hub req now).2.leads) ∧
    (∀ (db : DB) (hub : Nat) (req : LeadAddRequest) (now : Int) (dp : Pipeline),
      req.name ≠ "" → firstPipeline db hub = some dp →
      req.pipeline_id = none → req.stage_id = none →
      firstNonTerminalStage db dp.id = none →
      lead_add db hub req now = (LeadAddResult.noStagesAvailable, db)) ∧
    (∀ (db : DB) (hub : Nat) (req : LeadAddRequest) (now : Int),
      req.name ≠ "" → req.pipeline_id = none → req.stage_id = none →
      req.customer_id = none →
      (∀ q ∈ db.pipelines, q.hub_id ≠ hub) →
      (∀ q ∈ db.pipelines, q.id ≠ db.next_id) →
      (∀ s ∈ db.stages, s.pipeline_id ≠ db.next_id) →
      (∀ s ∈ db.settings, s.hub_id ≠ hub) →
      ∃ l, (lead_add db hub req now).1 = LeadAddResult.created l ∧
        l.pipeline_id = (ensure_default_pipeline db hub now).1.id ∧
        (∃ st0, firstNonTerminalStage (ensure_default_pipeline db hub now).2
            (ensure_default_pipeline db hub now).1.id = some st0 ∧
          l.stage_id = st0.id ∧ st0.name = "New" ∧ st0.order = 10 ∧
          st0.is_won = false ∧ st0.is_lost = false) ∧
        l.status = "open" ∧ l.stage_changed_at = now ∧
        l ∈ (lead_add db hub req now).2.leads) := by
  have hpart3 : ∀ (db : DB) (hub : Nat) (req : LeadAddRequest) (now : Int)
      (dp : Pipeline) (st0 : PipelineStage),
      req.name ≠ "" → firstPipeline db hub = some dp →
      req.pipeline_id = none → req.stage_id = none → req.customer_id = none →
      firstNonTerminalStage db dp.id = some st0 →
      ∃ l, (lead_add db hub req now).1 = LeadAddResult.created l ∧
        l.pipeline_id = dp.id ∧ l.stage_id = st0.id ∧
        st0.is_won = false ∧ st0.is_lost = false ∧
        l.status = "open" ∧ l.stage_changed_at = now ∧
        l ∈ (lead_add db hub req now).2.leads := by
    intro db hub req now dp st0 hname hfp hpid hsid hcust hnt
    have hrun : ensure_default_pipeline db hub now = (dp, db) := by
      simp [ensure_default_pipeline, hfp]
    have hrun3 : lead_add db hub req now =
        (LeadAddResult.created
          { id := db.next_id, hub_id := hub, name := req.name, email := req.email
            phone := req.phone, company := req.company, value := req.value
            expected_close_date := req.expected_close_date, pipeline_id := dp.id
            stage_id := st0.id, assigned_to := none, customer_id := none
            source := req.source, priority := req.priority, notes := req.notes
            status := "open", won_date := none, lost_date := none, loss_reason_id := none
            stage_changed_at := now, created_at := now, updated_at := now
            is_deleted := false, deleted_at := none },
         createActivity
           { db with
             leads := db.leads ++
               [{ id := db.next_id, hub_id := hub, name := req.name, email := req.email
                  phone := req.phone, company := req.company, value := req.value
                  expected_close_date := req.expected_close_date, pipeline_id := dp.id
                  stage_id := st0.id, assigned_to := none, customer_id := none
                  source := req.source, priority := req.priority, notes := req.notes
                  status := "open", won_date := none, lost_date := none
                  loss_reason_id := none, stage_changed_at := now, created_at := now
                  updated_at := now, is_deleted := false, deleted_at := none }]
             next_id := db.next_id + 1 }
           hub db.next_id "note" "Lead created" [("source", req.source)] now) := by
      simp [lead_add, hrun, beq_eq_false_iff_ne.mpr hname, hpid, hsid, hcust, hnt]
    have hflags := firstNonTerminalStage_spec db dp.id st0 hnt
    rw [hrun3]
    refine ⟨_, rfl, rfl, rfl, hflags.2.2.1, hflags.2.2.2, rfl, rfl, ?_⟩
    simp [createActivity]
  refine ⟨?_, ?_, hpart3, ?_, ?_⟩
  · intro db hub req now h
    simp [lead_add, h]
  · intro db hub pid req now dp pl hname hfp hpid hpl hsid hnt
    have hrun : ensure_default_pipeline db hub now = (dp, db) := by
      simp [ensure_default_pipeline, hfp]
    simp [lead_add, hrun, beq_eq_false_iff_ne.mpr hname, hpid, hpl, hsid, hnt]
  · intro db hub req now dp hname hfp hpid hsid hnt
    have hrun : ensure_default_pipeline db hub now = (dp, db) := by
      simp [ensure_default_pipeline, hfp]
    simp [lead_add, hrun, beq_eq_false_iff_ne.mpr hname, hpid, hsid, hnt]
  · intro db hub req now hname hpidr hsidr hcust hp hpid hsid hst
    have hfagain := firstPipeline_after_fresh db hub now hp hpid hst
    have heq := lead_add_after_fresh db hub req now hp hpid hst
    have hfnt := firstNonTerminalStage_after_fresh db hub now hp hpid hsid hst
    obtain ⟨l, h1, h2, h3, _hw, _hlo, h6, h7, h8⟩ :=
      hpart3 (ensure_default_pipeline db hub now).2 hub req now
        (ensure_default_pipeline db hub now).1
        { id := db.next_id + 1, hub_id := hub, pipeline_id := db.next_id
          name := "New", order := 10, probability := 10, color := "info"
          is_won := false, is_lost := false, is_deleted := false
          deleted_at := none }
        hname hfagain hpidr hsidr hcust hfnt
    refine ⟨l, ?_, h2, ⟨_, hfnt, h3, rfl, rfl, rfl, rfl⟩, h6, h7, ?_⟩
    · rw [heq]
      exact h1
    · rw [heq]
      exact h8

/-- Concrete store for the C4 counterexample and the no-stages witness: the
hub's only pipeline carries only the terminal won stage 3, so it has no
non-terminal stage. -/
def dbX4 : DB :=
  { emptyDB with pipelines := [samplePipeline], stages := [sampleStageWon] }

/-- C4 counterexample: the target pipeline of `dbX4` has no non-terminal stage,
the name is non-empty, and yet creation with an explicitly supplied (terminal)
stage succeeds instead of failing with a validation error — refuting the claim
that `create_lead` fails whenever the target pipeline has no non-terminal
stage. -/
theorem lead_add_terminal_stage_accepted :
    (firstNonTerminalStage dbX4 1 = none) ∧
    (({ name := "Acme", pipeline_id := some 1, stage_id := some 3 } :
        LeadAddRequest).name ≠ "") ∧
    ((lead_add dbX4 0
        { name := "Acme", pipeline_id := some 1, stage_id := some 3 } 100).1.isCreated =
      true) := by
  refine ⟨rfl, by decide, rfl⟩

/-- Concrete store for the C4 success witness: the hub's default pipeline has
the non-terminal stage 2. -/
def dbW4 : DB :=
  { emptyDB with pipelines := [samplePipeline], stages := [sampleStageNew] }

/-- C4 witness: the five branches at concrete inputs — empty name is rejected;
an omitted stage with no non-terminal stage is rejected both with an explicit
pipeline and with the pipeline omitted; the normal path creates an open lead on
the default pipeline's lowest-order non-terminal stage; and on a fresh tenant
(empty store) the default pipeline is bootstrapped and the lead lands on its
"New" stage. -/
theorem lead_add_spec_witness :
    ((lead_add emptyDB 0 { name := "" } 5).1 = LeadAddResult.nameRequired) ∧
    (lead_add dbX4 0 { name := "Acme", pipeline_id := some 1 } 5 =
      (LeadAddResult.noStagesAvailable, dbX4)) ∧
    (∃ l, (lead_add dbW4 0 { name := "Acme" } 5).1 = LeadAddResult.created l ∧
      l.pipeline_id = samplePipeline.id ∧ l.stage_id = sampleStageNew.id ∧
      sampleStageNew.is_won = false ∧ sampleStageNew.is_lost = false ∧
      l.status = "open" ∧ l.stage_changed_at = 5 ∧
      l ∈ (lead_add dbW4 0 { name := "Acme" } 5).2.leads) ∧
    (lead_add dbX4 0 { name := "Acme" } 5 =
      (LeadAddResult.noStagesAvailable, dbX4)) ∧
    (∃ l, (lead_add emptyDB 0 { name := "Acme" } 5).1 = LeadAddResult.created l ∧
      l.pipeline_id = (ensure_default_pipeline emptyDB 0 5).1.id ∧
      (∃ st0, firstNonTerminalStage (ensure_default_pipeline emptyDB 0 5).2
          (ensure_default_pipeline emptyDB 0 5).1.id = some st0 ∧
        l.stage_id = st0.id ∧ st0.name = "New" ∧ st0.order = 10 ∧
        st0.is_won = false ∧ st0.is_lost = false) ∧
      l.status = "open" ∧ l.stage_changed_at = 5 ∧
      l ∈ (lead_add emptyDB 0 { name := "Acme" } 5).2.leads) :=
  ⟨lead_add_spec.1 emptyDB 0 { name := "" } 5 rfl,
   lead_add_spec.2.1 dbX4 0 1 { name := "Acme", pipeline_id := some 1 } 5
     samplePipeline samplePipeline (by decide) rfl rfl rfl rfl rfl,
   lead_add_spec.2.2.1 dbW4 0 { name := "Acme" } 5 samplePipeline sampleStageNew
     (by decide) rfl rfl rfl rfl rfl,
   lead_add_spec.2.2.2.1 dbX4 0 { name := "Acme" } 5 samplePipeline
     (by decide) rfl rfl rfl rfl,
   lead_add_spec.2.2.2.2 emptyDB 0 { name := "Acme" } 5
     (by decide) rfl rfl rfl (by decide) (by decide) (by decide) (by decide)⟩
